import Mathlib

/-!
Verification of the download-orchestration core of a desktop media-download
front-end (VVdown GUI).  The definitions below are a shallow embedding of the
Python sources:

  * `src/utils/cookie_utils.py`  — cookie file parsing and truncation
  * `src/core/downloader.py`     — command builder and process supervisor
  * `src/utils/net_utils.py`     — release-asset URL resolution
  * `src/core/installer.py`      — dependency installation and chunked download

Strings are modelled by Lean `String` (a list of unicode code points), which
matches Python `str` semantics for `len`, slicing, and substring tests on the
inputs involved.  Filesystem and network effects are passed in explicitly as
environment records, and Python exceptions are modelled with `Except`.
-/

/-! ## Python string primitives (over the code-point list) -/

/-- Python `sub in s`: `pat` occurs as a contiguous sublist of `l`. -/
def containsChars (pat l : List Char) : Bool :=
  match l with
  | [] => pat.isEmpty
  | _ :: tl => pat.isPrefixOf l || containsChars pat tl

/-- Python `sub in s` on strings. -/
def pyContains (s sub : String) : Bool :=
  containsChars sub.data s.data

/-- Python `s.endswith(suffix)`. -/
def pyEndsWith (s suffix : String) : Bool :=
  suffix.data.reverse.isPrefixOf s.data.reverse

/-- Python `s.lower()` (ASCII case folding, which covers every string the
code lowercases). -/
def pyLower (s : String) : String :=
  ⟨s.data.map Char.toLower⟩

/-- Python `s.strip()`: remove whitespace from both ends. -/
def pyStrip (s : String) : String :=
  ⟨((s.data.dropWhile Char.isWhitespace).reverse.dropWhile Char.isWhitespace).reverse⟩

/-- Python `s.strip('.')`: remove dots from both ends. -/
def pyStripDots (cs : List Char) : List Char :=
  ((cs.dropWhile (fun c => c == '.')).reverse.dropWhile (fun c => c == '.')).reverse

/-- Python `len(s)`: number of code points. -/
def pyLen (s : String) : Nat :=
  s.data.length

/-- Python `s[:n]`: first `n` code points. -/
def pyTake (s : String) (n : Nat) : String :=
  ⟨s.data.take n⟩

/-! ## Cookie Resolver — `cookie_utils._read_cookie_cached` body

`_read_cookie_cached(filepath, host, mtime, max_len)` reads the cookie file
line by line.  We model the successfully-read file as its list of lines (the
`except` branch that returns `""` on an I/O error is outside the lines-level
model).  `parse_cookie_file` runs the same loop (lines 140–156) on its
non-cached path and returns the identical aggregation, so one definition
covers both cited code sites. -/

/-- One iteration of the parsing loop: strip the line, skip blanks and
`#`-comments, split on tabs, require at least 7 fields, and keep
`name=value` when the domain field is non-empty and its dot-stripped form is
a substring of the host or the host is a substring of the domain field. -/
def cookieLinePart (host : String) (raw : String) : Option String :=
  let line := pyStrip raw
  if line.data.isEmpty then none
  else if line.data.head? == some '#' then none
  else
    let fields := line.data.splitOn '\t'
    if 7 ≤ fields.length then
      let domain := fields.getD 0 []
      let name := fields.getD 5 []
      let value := fields.getD 6 []
      if !domain.isEmpty &&
          (containsChars (pyStripDots domain) host.data || containsChars host.data domain) then
        some ⟨name ++ '=' :: value⟩
      else none
    else none

/-- Matched `name=value` pairs of a cookie file, in file order. -/
def cookieParts (lines : List String) (host : String) : List String :=
  lines.filterMap (cookieLinePart host)

/-- Function `_read_cookie_cached`, aggregation and truncation (lines 80–83 of
`cookie_utils.py`): join the matched pairs with a literal `"; "`, and
hard-truncate to the first `maxLen` code points only when the joined string
is strictly longer than `maxLen`. -/
def readCookieCached (lines : List String) (host : String) (maxLen : Nat) : String :=
  let finalCookie := String.intercalate "; " (cookieParts lines host)
  if maxLen < pyLen finalCookie then pyTake finalCookie maxLen
  else finalCookie

/-! ## Command Builder — `downloader.DownloaderEngine._build_command`

The builder's interactions with the outside world are collected in a
`BuildEnv`: the detected OS name (`config.config.SYSTEM`), the `bin`
directory, `os.path.isfile`, the browser-cookie bootstrap
(`_bootstrap_cookies_from_browser`, which runs yt-dlp and returns the path
of the extracted cookie file, or `None`), and `parse_cookie_file` (whose
possible exception is modelled with `Except`; the builder wraps every call
to it in `try/except`).  Raising `ValueError` is modelled as
`Except.error`.  Log-sink calls made by the builder are collected as
`(translation key, tag)` pairs in emission order. -/

/-- Environment of `_build_command`. -/
structure BuildEnv where
  system : String
  binDir : String
  isFile : String → Bool
  bootstrap : String → String → Option String
  parseCookie : String → String → Except String String

/-- Model of `os.path.join` for the paths the code forms (directory followed by a
bare file name). -/
def joinPath (dir file : String) : String :=
  dir ++ "/" ++ file

/-- Constant `config.config.COOKIE_PERSISTENT_CACHE_ENABLED` (build-time). -/
def COOKIE_PERSISTENT_CACHE_ENABLED : Bool := true

/-- Helper `_is_stream_url` (local to `_build_command`). -/
def isStreamUrl (u : String) : Bool :=
  let ul := pyLower u
  pyEndsWith ul ".m3u8" || pyEndsWith ul ".mpd" || pyContains ul "m3u8"

/-- Helper `_is_twitter_url` (module-level, case-sensitive as in the code). -/
def isTwitterUrl (url : String) : Bool :=
  pyContains url "twitter.com" || pyContains url "x.com"

/-- The browser list used by the bootstrap choice (line 206), the Twitter
branch (line 297) and the yt-dlp fallback (line 320). -/
def browserList : List String := ["chrome", "edge", "firefox", "safari"]

/-- The browser list of the RE-engine fallback warning (line 263; same set,
different literal order). -/
def reBrowserList : List String := ["chrome", "edge", "safari", "firefox"]

/-- Result of `_build_command`: the argument vector, the optional
`Cookie:` header string it returned alongside, and the log events emitted. -/
structure BuildOut where
  cmd : List String
  cookieHeader : Option String
  logs : List (String × String)
deriving DecidableEq

/-- The `try: parse_cookie_file(...) except: None` pattern. -/
def tryParse (env : BuildEnv) (path url : String) : Option String :=
  match env.parseCookie path url with
  | Except.ok s => some s
  | Except.error _ => none

/-- Python truthiness of the `cookie_str` variable (`None` and `""` are
falsy). -/
def optTruthy : Option String → Bool
  | some s => !s.data.isEmpty
  | none => false

/-- The first-run bootstrap of `_build_command` (lines 203–207): when no
cookie file is set, extract browser cookies via yt-dlp; the bootstrap
result `None` and the never-produced empty path are both modelled by `""`,
which the code only ever inspects for truthiness. -/
def effCookiePath (env : BuildEnv) (url cookieSrc cookiePath : String) : String :=
  if cookiePath.data.isEmpty then
    let bootstrapBrowser := if browserList.contains cookieSrc then cookieSrc else "chrome"
    match env.bootstrap bootstrapBrowser url with
    | some p => p
    | none => ""
  else cookiePath

/-- The `engine == "re"` branch of `_build_command` (lines 209–266), given
the effective cookie path after bootstrap. -/
def reEngineBuild (env : BuildEnv) (url saveDir cookieSrc effPath : String)
    (threads : Int) : Except String BuildOut :=
  if !isStreamUrl url then
    Except.error "RE engine only supports stream URLs (m3u8/mpd). Use yt-dlp for webpage URLs."
  else
    let reExe := if env.system == "Windows" then "N_m3u8DL-RE.exe" else "N_m3u8DL-RE"
      let rePath := joinPath env.binDir reExe
      let exeCmd := if env.isFile rePath then rePath else "N_m3u8DL-RE"
      let cmd0 := [exeCmd, url, "--save-dir", saveDir, "--auto-select", "--no-log"]
      let cmd1 := if threads > 0 then cmd0 ++ ["--thread-count", toString threads] else cmd0
      let cookieStr : Option String :=
        if COOKIE_PERSISTENT_CACHE_ENABLED && !effPath.data.isEmpty then
          tryParse env effPath url
        else none
      if optTruthy cookieStr then
        let hdr := "Cookie: " ++ cookieStr.getD ""
        Except.ok ⟨cmd1 ++ ["--header", hdr], some hdr, [("log_cookie_match", "success")]⟩
      else if cookieSrc == "file" && !effPath.data.isEmpty then
        match env.parseCookie effPath url with
        | Except.error _ =>
          Except.ok ⟨cmd1, none,
            [("log_cookie_filter", "info"), ("log_cookie_parse_error", "warning"),
             ("log_cookie_none", "warning")]⟩
        | Except.ok s =>
          if !s.data.isEmpty then
            let hdr := "Cookie: " ++ s
            Except.ok ⟨cmd1 ++ ["--header", hdr], some hdr,
              [("log_cookie_filter", "info"), ("log_cookie_match", "success")]⟩
          else
            Except.ok ⟨cmd1, none,
              [("log_cookie_filter", "info"), ("log_cookie_none", "warning")]⟩
      else if reBrowserList.contains cookieSrc then
        Except.ok ⟨cmd1, none, [("log_re_no_browser", "warning")]⟩
      else
        Except.ok ⟨cmd1, none, []⟩

/-- The yt-dlp branch of `_build_command` (lines 268–324), given the
effective cookie path after bootstrap. -/
def ytEngineBuild (env : BuildEnv) (url engine saveDir cookieSrc effPath : String)
    (threads : Int) : Except String BuildOut :=
    let ytPath := joinPath env.binDir (if env.system == "Windows" then "yt-dlp.exe" else "yt-dlp")
    let ytCmd := if env.isFile ytPath then ytPath else "yt-dlp"
    let cmd0 := [ytCmd, "-P", saveDir, "--merge-output-format", "mp4",
                 "--retries", "10", "-f", "bv+ba/b", url]
    let aria2Path := joinPath env.binDir (if env.system == "Windows" then "aria2c.exe" else "aria2c")
    let aria2Cmd := if env.isFile aria2Path then aria2Path else "aria2c"
    let cmd1 :=
      if engine == "aria2" then
        cmd0 ++ ["--downloader", aria2Cmd,
                 "--downloader-args", aria2Cmd ++ ":-x " ++ toString threads ++ " -k 1M"]
      else cmd0
    let logs1 : List (String × String) :=
      if engine == "aria2" then [("log_aria2_enabled", "info")] else []
    if isTwitterUrl url then
      if browserList.contains cookieSrc then
        Except.ok ⟨cmd1 ++ ["--cookies-from-browser", cookieSrc], none,
          logs1 ++ [("log_cookie_from_browser", "info")]⟩
      else
        Except.ok ⟨cmd1, none, logs1 ++ [("log_cookie_none", "warning")]⟩
    else
      let cookieStr : Option String :=
        if !effPath.data.isEmpty then tryParse env effPath url else none
      if optTruthy cookieStr then
        Except.ok ⟨cmd1 ++ ["--add-header", "Cookie: " ++ cookieStr.getD ""], none,
          logs1 ++ [("log_cookie_match", "success")]⟩
      else if browserList.contains cookieSrc then
        Except.ok ⟨cmd1 ++ ["--cookies-from-browser", cookieSrc], none,
          logs1 ++ [("log_cookie_from_browser", "info")]⟩
      else
        Except.ok ⟨cmd1, none, logs1⟩

/-- Function `_build_command(url, engine, save_dir, cookie_src, cookie_path, threads)`:
bootstrap the cookie path, then dispatch on the engine. -/
def buildCommand (env : BuildEnv) (url engine saveDir cookieSrc cookiePath : String)
    (threads : Int) : Except String BuildOut :=
  let effPath := effCookiePath env url cookieSrc cookiePath
  if engine == "re" then reEngineBuild env url saveDir cookieSrc effPath threads
  else ytEngineBuild env url engine saveDir cookieSrc effPath threads

/-! ## Process Supervisor — `DownloaderEngine.run`

The child process is an oracle `spawn : List String → Except String
(List String × Int)`: `Except.error` models an exception out of
`subprocess.Popen` (`FileNotFoundError` or any other), `Except.ok (lines,
rc)` the streamed output lines followed by the exit code.  Inside `run` the
`try` block begins only after `_build_command` has returned (line 348 vs
line 360 of `downloader.py`), so a construction error is returned as
`Except.error`, i.e. it reaches `run`'s caller as a raised exception. -/

/-- The error-sniffing keyword list of `run` (line 387). -/
def errorKeywords : List String :=
  ["error", "403 forbidden", "command not found", "unable to download", "failed", "exception"]

/-- A single stripped output line matches the heuristic. -/
def lineFlagsError (line : String) : Bool :=
  errorKeywords.any (fun k => pyContains (pyLower line) k)

/-- Flag `error_detected` after the streaming loop: empty lines (after strip)
are skipped, any other line containing a keyword in its lowercase form sets
the flag. -/
def errorDetected (lines : List String) : Bool :=
  lines.any (fun raw =>
    let line := pyStrip raw
    !line.data.isEmpty && lineFlagsError line)

/-- Method `DownloaderEngine.run`: build the command, then spawn and stream.
Returns `Except.error` when command construction raises (the exception
propagates raw), `Except.ok (success, returnCode)` otherwise, with
exceptions from the spawn/stream phase caught and converted to
`(false, none)`. -/
def runEngine (env : BuildEnv)
    (spawn : List String → Except String (List String × Int))
    (url engine saveDir cookieSrc cookiePath : String) (threads : Int) :
    Except String (Bool × Option Int) :=
  match buildCommand env url engine saveDir cookieSrc cookiePath threads with
  | Except.error e => Except.error e
  | Except.ok out =>
    match spawn out.cmd with
    | Except.error _ => Except.ok (false, none)
    | Except.ok (lines, rc) =>
      Except.ok ((rc == 0 && !errorDetected lines), some rc)

/-! ## Resource Locator — `net_utils.ResourceProvider._re_url`

A release index is the asset list of the latest-release metadata; each
asset contributes its `name` and `browser_download_url` (a missing URL is
modelled by `""`, which `_mirror` maps to `""`).  The platform flags are
the `config.config` constants `IS_WIN` / `IS_ARM`, and `is_cn` selects the
mirror prefixing of `_mirror`. -/

/-- One entry of the release index asset list. -/
structure Asset where
  name : String
  url : String
deriving DecidableEq

/-- Method `ResourceProvider._mirror`. -/
def mirror (isCn : Bool) (url : String) : String :=
  if url.data.isEmpty then ""
  else if isCn then "https://ghproxy.net/" ++ url
  else url

/-- The Windows loop of `_re_url` (lines 273–279): first asset whose
lowercase name ends in the architecture-specific archive suffix. -/
def reWinPick (isArm : Bool) : List Asset → Option Asset
  | [] => none
  | a :: rest =>
    let n := pyLower a.name
    if isArm && pyEndsWith n "win-arm64.zip" then some a
    else if !isArm && pyEndsWith n "win-x64.zip" then some a
    else reWinPick isArm rest

/-- The macOS loop of `_re_url` (lines 281–289): first asset whose
lowercase name contains a mac keyword, does not contain "linux" and does
not end in ".exe".  The loop is not guarded by a platform test and never
consults the architecture. -/
def reMacPick : List Asset → Option Asset
  | [] => none
  | a :: rest =>
    let n := pyLower a.name
    if (pyContains n "mac" || pyContains n "darwin" || pyContains n "osx")
        && !pyContains n "linux" && !pyEndsWith n ".exe" then some a
    else reMacPick rest

/-- Method `ResourceProvider._re_url` given the fetched asset list: the Windows
loop runs only under `IS_WIN`, then the macOS loop runs unconditionally,
then the resolver returns `""` (no Linux auto-download). -/
def reUrl (isWin isArm isCn : Bool) (assets : List Asset) : String :=
  match (if isWin then reWinPick isArm assets else none) with
  | some a => mirror isCn a.url
  | none =>
    match reMacPick assets with
    | some a => mirror isCn a.url
    | none => ""

/-! ## Dependency Installer — `installer.DependencyInstaller`

`_download_file` is modelled as a state machine over an explicit
filesystem (the set of existing paths) plus the sequence of answers the
`InstallController.should_stop()` flag gives to its successive polls.  The
network behaviour of attempt `i` is `net i`: `none` models an exception out
of `urllib.request.urlopen`/`read` (caught by the retry loop), `some
chunks` a successful response streamed as chunks. -/

/-- Filesystem-and-cancellation state for the download model. -/
structure DLState where
  fs : List String
  stops : List Bool
deriving DecidableEq

/-- One `controller.should_stop()` poll (an exhausted schedule keeps
answering `false`). -/
def popStop (st : DLState) : Bool × DLState :=
  match st.stops with
  | [] => (false, st)
  | b :: rest => (b, { st with stops := rest })

/-- Python `open(path, "wb")` creates the file if absent. -/
def addPath (p : String) (fs : List String) : List String :=
  if fs.contains p then fs else p :: fs

/-- Python `os.remove(path)` and the removal half of `os.replace`: missing files
raise, which every call site catches, so the effect is a conditional
removal. -/
def removePath (p : String) (fs : List String) : List String :=
  fs.filter (fun q => q != p)

/-- The chunk loop of `_download_file` (lines 401–424): before every read
the stop flag is polled; a set flag returns `False` immediately — the
function performs no cleanup of the partially written file on this path.
An empty read breaks the loop successfully. -/
def writeLoop : List String → DLState → Bool × DLState
  | [], st =>
    let (stop, st1) := popStop st
    if stop then (false, st1) else (true, st1)
  | _ :: rest, st =>
    let (stop, st1) := popStop st
    if stop then (false, st1) else writeLoop rest st1

/-- The retry loop of `_download_file`: `fuel` is the remaining attempt
budget (`retries - attempt`), the stop flag is polled at each loop head,
a network exception retries, and a completed body is atomically renamed
from `destPath ++ ".part"` onto `destPath` (`os.replace`; the
`copyfile`-plus-`remove` fallback has the same filesystem effect). -/
def downloadFileAux (net : Nat → Option (List String)) (destPath : String) :
    Nat → Nat → DLState → Bool × DLState
  | 0, _, st => (false, st)
  | fuel + 1, attempt, st =>
    let (stop, st1) := popStop st
    if stop then (false, st1)
    else
      match net attempt with
      | none => downloadFileAux net destPath fuel (attempt + 1) st1
      | some chunks =>
        let tmpPath := destPath ++ ".part"
        let st2 := { st1 with fs := addPath tmpPath st1.fs }
        let (done, st3) := writeLoop chunks st2
        if done then
          (true, { st3 with fs := addPath destPath (removePath tmpPath st3.fs) })
        else (false, st3)

/-- Method `DependencyInstaller._download_file` with its default `retries = 3`
(all call sites use the default). -/
def downloadFile (net : Nat → Option (List String)) (destPath : String)
    (st : DLState) : Bool × DLState :=
  downloadFileAux net destPath 3 0 st

/-- The four managed tools. -/
inductive Tool
  | ytDlp
  | ffmpeg
  | aria2
  | re
deriving DecidableEq

/-- The expected binary name in the tool directory (`_ensure_yt_dlp`,
`_ensure_ffmpeg`, `_ensure_aria2`, `_ensure_re`). -/
def toolBinName (isWin : Bool) : Tool → String
  | Tool.ytDlp => if isWin then "yt-dlp.exe" else "yt-dlp"
  | Tool.ffmpeg => if isWin then "ffmpeg.exe" else "ffmpeg"
  | Tool.aria2 => if isWin then "aria2c.exe" else "aria2c"
  | Tool.re => if isWin then "N_m3u8DL-RE.exe" else "N_m3u8DL-RE"

/-- The logical name each ensure helper passes to
`ResourceProvider.get_dependency_url`. -/
def toolLogicalName : Tool → String
  | Tool.ytDlp => "yt-dlp"
  | Tool.ffmpeg => "ffmpeg"
  | Tool.aria2 => "aria2"
  | Tool.re => "N_m3u8DL-RE"

/-- Environment of the `_ensure_*` helpers, at the granularity of network
effects: `resolveUrl` is `get_dependency_url` (costing `resolveNetCalls`
release-index fetches when invoked), a `_download_file` invocation costs
`downloadNetCalls` network requests and succeeds iff `downloadOk`, and the
purely local post-download processing (archive extraction, placing and
`chmod`-ing the binary) succeeds iff `extractOk` resp. `moveOk`. -/
structure InstEnv where
  isWin : Bool
  binDir : String
  pathExists : String → Bool
  resolveUrl : String → String
  resolveNetCalls : Nat
  downloadNetCalls : Nat
  downloadOk : Bool
  extractOk : Bool
  moveOk : Bool

/-- Contract `ensure(tool) → (installed, networkCalls)`: each `_ensure_*` helper
returns `True` immediately when the expected binary already exists
(lines 153, 180, 252, 445 of `installer.py`), before any URL resolution or
download; otherwise it resolves the URL (empty means failure), downloads,
and post-processes locally. -/
def ensureTool (env : InstEnv) (t : Tool) : Bool × Nat :=
  let target := joinPath env.binDir (toolBinName env.isWin t)
  if env.pathExists target then (true, 0)
  else
    let url := env.resolveUrl (toolLogicalName t)
    if url.data.isEmpty then (false, env.resolveNetCalls)
    else if !env.downloadOk then (false, env.resolveNetCalls + env.downloadNetCalls)
    else
      match t with
      | Tool.ytDlp => (true, env.resolveNetCalls + env.downloadNetCalls)
      | Tool.ffmpeg => (env.extractOk, env.resolveNetCalls + env.downloadNetCalls)
      | Tool.aria2 => (env.extractOk, env.resolveNetCalls + env.downloadNetCalls)
      | Tool.re => ((env.extractOk || env.moveOk), env.resolveNetCalls + env.downloadNetCalls)

/-! ## Derived command shapes (named for the theorems below) -/

/-- The RE-engine base vector of `_build_command` before cookie injection
(executable, url, save dir, flags, optional thread count). -/
def reBaseCmd (env : BuildEnv) (url saveDir : String) (threads : Int) : List String :=
  let reExe := if env.system == "Windows" then "N_m3u8DL-RE.exe" else "N_m3u8DL-RE"
  let rePath := joinPath env.binDir reExe
  let exeCmd := if env.isFile rePath then rePath else "N_m3u8DL-RE"
  let cmd0 := [exeCmd, url, "--save-dir", saveDir, "--auto-select", "--no-log"]
  if threads > 0 then cmd0 ++ ["--thread-count", toString threads] else cmd0

/-- The yt-dlp base vector of `_build_command`. -/
def ytBaseCmd (env : BuildEnv) (saveDir url : String) : List String :=
  let ytPath := joinPath env.binDir (if env.system == "Windows" then "yt-dlp.exe" else "yt-dlp")
  let ytCmd := if env.isFile ytPath then ytPath else "yt-dlp"
  [ytCmd, "-P", saveDir, "--merge-output-format", "mp4", "--retries", "10", "-f", "bv+ba/b", url]

/-- The accelerator arguments appended for the aria2 engine. -/
def aria2Args (env : BuildEnv) (threads : Int) : List String :=
  let aria2Path := joinPath env.binDir (if env.system == "Windows" then "aria2c.exe" else "aria2c")
  let aria2Cmd := if env.isFile aria2Path then aria2Path else "aria2c"
  ["--downloader", aria2Cmd, "--downloader-args", aria2Cmd ++ ":-x " ++ toString threads ++ " -k 1M"]

/-- The cookie arguments the Twitter branch appends. -/
def browserCookieArgs (cookieSrc : String) : List String :=
  if browserList.contains cookieSrc then ["--cookies-from-browser", cookieSrc] else []

/-- The log event the Twitter branch emits. -/
def twitterCookieLog (cookieSrc : String) : List (String × String) :=
  if browserList.contains cookieSrc then [("log_cookie_from_browser", "info")]
  else [("log_cookie_none", "warning")]

/-! ## Concrete environments used by closed theorems -/

/-- An environment in which no tool binary is in `bin`, the browser-cookie
bootstrap finds nothing, and cookie files parse to the empty string. -/
def envNoCookies : BuildEnv :=
  ⟨"Linux", "bin", fun _ => false, fun _ _ => none, fun _ _ => Except.ok ""⟩

/-- An environment in which the browser-cookie bootstrap succeeds and the
extracted file parses to a non-empty cookie string. -/
def envBrowserCookies : BuildEnv :=
  ⟨"Linux", "bin", fun _ => false, fun _ _ => some "/cfg/cookies_chrome.txt",
   fun _ _ => Except.ok "sid=abc"⟩

/-- The fixed release index of the scenario. -/
def assetsScenario : List Asset :=
  [⟨"tool-win-x64.zip", "https://dl/win-x64"⟩,
   ⟨"tool-linux-x64.tar.gz", "https://dl/linux-x64"⟩,
   ⟨"tool-mac-arm64.zip", "https://dl/mac-arm64"⟩]

/-- A network that always answers with a three-chunk response. -/
def netThreeChunks : Nat → Option (List String) := fun _ => some ["c1", "c2", "c3"]

/-- An installer environment in which every expected binary exists. -/
def instEnvAllPresent : InstEnv :=
  ⟨false, "bin", fun _ => true, fun _ => "", 1, 1, false, false, false⟩

/-- A helper equivalence between the two renderings of string emptiness. -/
theorem strDataIsEmptyFalse (s : String) : s.data.isEmpty = false ↔ s ≠ "" := by
  cases s with
  | mk d => cases d <;> simp [String.ext_iff]

/-- The empty string literal has the empty code-point list. -/
theorem strDataNil : ("" : String).data = [] := rfl

/-- A string differs from the empty literal iff its code-point list is
non-nil. -/
theorem strNeNil (s : String) : s ≠ "" ↔ s.data ≠ [] :=
  not_congr (String.ext_iff.trans (by rw [strDataNil]))

/-! ## Claim C5 — stream-tool asset resolution scenario -/

/-- C5 counterexample: resolving the stream tool for (macOS, x64) on the
scenario index does not yield empty — the macOS branch of `_re_url` ignores
the architecture and returns the `mac-arm64` asset's URL. -/
theorem reUrl_mac_x64_cex :
    reUrl false false false assetsScenario = "https://dl/mac-arm64" ∧
    ("https://dl/mac-arm64" : String) ≠ "" := by
  exact ⟨rfl, by decide⟩

/-- C5 (amended): on the scenario index, (Windows, x64) resolves to the
first asset's URL, (macOS, arm64) to the third, and (macOS, x64) also to
the third — not to empty — because the macOS loop of `_re_url` matches
platform keywords only and never consults the architecture. -/
theorem reUrl_scenario :
    reUrl true false false assetsScenario = "https://dl/win-x64" ∧
    reUrl false true false assetsScenario = "https://dl/mac-arm64" ∧
    reUrl false false false assetsScenario = "https://dl/mac-arm64" := by
  exact ⟨rfl, rfl, rfl⟩

/-! ## Claim C7 — cancelled download leaves the `.part` file -/

/-- C7: with a stop request arriving after the first chunk (the third
`should_stop` poll answers `true`), `_download_file` returns `False` and
the temporary artifact `dest + ".part"` is still on disk; the caller-side
cleanup of `_ensure_re` removes only `re_temp.bin` itself and therefore
leaves the `.part` file in place. -/
theorem cancelled_download_leaves_part_file :
    downloadFile netThreeChunks "bin/re_temp.bin" ⟨[], [false, false, true]⟩ =
      (false, ⟨["bin/re_temp.bin.part"], []⟩) ∧
    removePath "bin/re_temp.bin" ["bin/re_temp.bin.part"] = ["bin/re_temp.bin.part"] := by
  exact ⟨rfl, rfl⟩

/-! ## Claim C8 — ensure is a no-op with zero network calls when the
binary exists -/

/-- C8: for every managed tool, when the expected binary already exists at
its expected path under the tool directory, `ensure(tool)` returns `true`
with zero network calls (no release-index fetch, no download). -/
theorem ensure_existing_no_network (env : InstEnv) (t : Tool)
    (h : env.pathExists (joinPath env.binDir (toolBinName env.isWin t)) = true) :
    ensureTool env t = (true, 0) := by
  simp [ensureTool, h]

/-- C8 witness: the stream tool is present, so ensure returns `(true, 0)`. -/
theorem ensure_existing_no_network_witness :
    ensureTool instEnvAllPresent Tool.re = (true, 0) :=
  ensure_existing_no_network instEnvAllPresent Tool.re rfl

/-! ## Claim C9 — cookie joining and truncation boundary -/

/-- C9: the resolver joins the matched pairs with `"; "`; the joined string
is returned unmodified whenever its length is at most `maxLen` (in
particular at exactly `maxLen`), and is cut to exactly the first `maxLen`
characters whenever it is longer. -/
theorem cookie_truncation_boundary (lines : List String) (host : String) (maxLen : Nat) :
    (pyLen (String.intercalate "; " (cookieParts lines host)) ≤ maxLen →
      readCookieCached lines host maxLen = String.intercalate "; " (cookieParts lines host)) ∧
    (maxLen < pyLen (String.intercalate "; " (cookieParts lines host)) →
      readCookieCached lines host maxLen =
        pyTake (String.intercalate "; " (cookieParts lines host)) maxLen ∧
      pyLen (readCookieCached lines host maxLen) = maxLen) := by
  constructor
  · intro h
    unfold readCookieCached
    rw [if_neg (by omega)]
  · intro h
    have h1 : readCookieCached lines host maxLen =
        pyTake (String.intercalate "; " (cookieParts lines host)) maxLen := by
      unfold readCookieCached
      rw [if_pos h]
    refine ⟨h1, ?_⟩
    rw [h1]
    show ((String.intercalate "; " (cookieParts lines host)).data.take maxLen).length = maxLen
    rw [List.length_take]
    unfold pyLen at h
    omega

/-- C9 witness: a two-cookie file joining to `"sid=abc; uid=7"` (14
characters): with `maxLen = 14` the string is returned untouched, with
`maxLen = 13` it is cut to exactly 13 characters. -/
theorem cookie_truncation_boundary_witness :
    readCookieCached ["a.com\tT\t/\tF\t0\tsid\tabc", "a.com\tT\t/\tF\t0\tuid\t7"] "a.com" 14 =
      "sid=abc; uid=7" ∧
    readCookieCached ["a.com\tT\t/\tF\t0\tsid\tabc", "a.com\tT\t/\tF\t0\tuid\t7"] "a.com" 13 =
      "sid=abc; uid=" := by
  constructor
  · have h := (cookie_truncation_boundary
      ["a.com\tT\t/\tF\t0\tsid\tabc", "a.com\tT\t/\tF\t0\tuid\t7"] "a.com" 14).1 (by decide)
    rw [h]
    decide
  · have h := ((cookie_truncation_boundary
      ["a.com\tT\t/\tF\t0\tsid\tabc", "a.com\tT\t/\tF\t0\tuid\t7"] "a.com" 13).2 (by decide)).1
    rw [h]
    decide

/-! ## Claim C1 — exception boundary of the blocking run entry point -/

/-- C1 counterexample: calling the blocking `run` with the stream engine on
a non-stream URL makes `_build_command` raise, and — because the `try`
block of `run` starts only after the command is built — the exception
reaches `run`'s caller raw instead of being converted into `(False, None)`. -/
theorem run_propagates_build_error_cex :
    runEngine envNoCookies (fun _ => Except.ok ([], 0))
      "https://example.com/page" "re" "." "none" "" 0 =
      Except.error "RE engine only supports stream URLs (m3u8/mpd). Use yt-dlp for webpage URLs." := by
  rfl

/-- C1 (amended): an exception raised during command construction
propagates raw out of the blocking `run` (only the threaded wrapper
catches it), while an exception raised when spawning or streaming the
child process is caught by `run` and converted into the failure outcome
`(false, none)`. -/
theorem run_exception_boundary (env : BuildEnv)
    (spawn : List String → Except String (List String × Int))
    (url engine saveDir cookieSrc cookiePath : String) (threads : Int) :
    (∀ e, buildCommand env url engine saveDir cookieSrc cookiePath threads = Except.error e →
      runEngine env spawn url engine saveDir cookieSrc cookiePath threads = Except.error e) ∧
    (∀ out m, buildCommand env url engine saveDir cookieSrc cookiePath threads = Except.ok out →
      spawn out.cmd = Except.error m →
      runEngine env spawn url engine saveDir cookieSrc cookiePath threads =
        Except.ok (false, none)) := by
  constructor
  · intro e he
    unfold runEngine
    rw [he]
  · intro out m hok hsp
    simp only [runEngine, hok, hsp]

/-- C1 witness: a spawn failure (`FileNotFoundError`) on a well-formed
stream download is converted into `(false, none)`. -/
theorem run_exception_boundary_witness :
    runEngine envNoCookies (fun _ => Except.error "FileNotFoundError")
      "https://a/v.m3u8" "re" "." "none" "" 0 = Except.ok (false, none) :=
  (run_exception_boundary envNoCookies (fun _ => Except.error "FileNotFoundError")
      "https://a/v.m3u8" "re" "." "none" "" 0).2
    ⟨["N_m3u8DL-RE", "https://a/v.m3u8", "--save-dir", ".", "--auto-select", "--no-log"],
      none, []⟩
    "FileNotFoundError" rfl rfl

/-! ## Claim C2 — error sniffing keywords and the success formula -/

/-- C2 counterexample: the output line `"HTTP 403"` contains the claimed
substring `"403"`, yet the code's scan (which looks for `"403 forbidden"`,
not `"403"`) does not flag it, and the reported outcome on a zero exit
code is success. -/
theorem error_scan_403_cex :
    runEngine envNoCookies (fun _ => Except.ok (["HTTP 403"], 0))
      "https://a/v.m3u8" "re" "." "none" "" 0 = Except.ok (true, some 0) ∧
    pyContains (pyLower (pyStrip "HTTP 403")) "403" = true := by
  exact ⟨rfl, rfl⟩

/-- C2 (amended): the per-line scan looks for the six substrings "error",
"403 forbidden", "command not found", "unable to download", "failed",
"exception" in the lowercase form of each stripped non-empty line;
`errorDetected` holds iff some line matches, and the reported result is
`success = (exitCode == 0) AND NOT errorDetected` with the exit code
returned alongside. -/
theorem run_success_error_scan (env : BuildEnv)
    (spawn : List String → Except String (List String × Int))
    (url engine saveDir cookieSrc cookiePath : String) (threads : Int)
    (out : BuildOut) (lines : List String) (rc : Int)
    (hok : buildCommand env url engine saveDir cookieSrc cookiePath threads = Except.ok out)
    (hsp : spawn out.cmd = Except.ok (lines, rc)) :
    runEngine env spawn url engine saveDir cookieSrc cookiePath threads =
      Except.ok ((rc == 0 && !errorDetected lines), some rc) ∧
    (errorDetected lines = true ↔
      ∃ raw ∈ lines, pyStrip raw ≠ "" ∧
        ∃ k ∈ errorKeywords, pyContains (pyLower (pyStrip raw)) k = true) := by
  constructor
  · simp only [runEngine, hok, hsp]
  · unfold errorDetected lineFlagsError
    rw [List.any_eq_true]
    constructor
    · rintro ⟨raw, hmem, hval⟩
      rw [Bool.and_eq_true] at hval
      obtain ⟨hne, hany⟩ := hval
      rw [List.any_eq_true] at hany
      obtain ⟨k, hk, hck⟩ := hany
      refine ⟨raw, hmem, ?_, k, hk, hck⟩
      rw [Bool.not_eq_true'] at hne
      exact (strDataIsEmptyFalse (pyStrip raw)).mp hne
    · rintro ⟨raw, hmem, hne, k, hk, hck⟩
      refine ⟨raw, hmem, ?_⟩
      rw [Bool.and_eq_true]
      refine ⟨?_, List.any_eq_true.mpr ⟨k, hk, hck⟩⟩
      rw [Bool.not_eq_true']
      exact (strDataIsEmptyFalse (pyStrip raw)).mpr hne

/-- C2 witness: a run whose output contains a line matching the keyword
"failed" reports failure in spite of a zero exit code, and the
characterising existential holds of that output. -/
theorem run_success_error_scan_witness :
    runEngine envNoCookies (fun _ => Except.ok (["Download failed!"], 0))
      "https://a/v.m3u8" "re" "." "none" "" 0 = Except.ok (false, some 0) ∧
    errorDetected ["Download failed!"] = true := by
  have h := run_success_error_scan envNoCookies (fun _ => Except.ok (["Download failed!"], 0))
    "https://a/v.m3u8" "re" "." "none" "" 0
    ⟨["N_m3u8DL-RE", "https://a/v.m3u8", "--save-dir", ".", "--auto-select", "--no-log"],
      none, []⟩
    ["Download failed!"] 0 rfl rfl
  refine ⟨?_, ?_⟩
  · rw [h.1]
    rfl
  · exact h.2.mpr ⟨"Download failed!", by decide, by decide, "failed", by decide, by decide⟩

/-! ## Claim C4 — file-mode stream-engine cookie header round trip -/

/-- C4: for a stream-engine, file-mode build whose cookie resolution
returns `s`, the builder appends exactly `["--header", "Cookie: " ++ s]`
to the base vector when `s` is non-empty and appends no header flag and no
header value when `s` is empty. -/
theorem stream_file_cookie_header (env : BuildEnv) (url saveDir p : String)
    (threads : Int) (s : String)
    (hstream : isStreamUrl url = true) (hp : p ≠ "")
    (hparse : env.parseCookie p url = Except.ok s) :
    buildCommand env url "re" saveDir "file" p threads =
      (if s = "" then
        Except.ok ⟨reBaseCmd env url saveDir threads, none,
          [("log_cookie_filter", "info"), ("log_cookie_none", "warning")]⟩
      else
        Except.ok ⟨reBaseCmd env url saveDir threads ++ ["--header", "Cookie: " ++ s],
          some ("Cookie: " ++ s), [("log_cookie_match", "success")]⟩) := by
  have hpd : p.data ≠ [] := (strNeNil p).mp hp
  by_cases hs : s = ""
  · subst hs
    simp [buildCommand, effCookiePath, reEngineBuild, hpd, hstream, hparse, tryParse, optTruthy,
      COOKIE_PERSISTENT_CACHE_ENABLED, reBaseCmd]
  · have hsd : s.data ≠ [] := (strNeNil s).mp hs
    simp [buildCommand, effCookiePath, reEngineBuild, hpd, hstream, hparse, tryParse, optTruthy,
      COOKIE_PERSISTENT_CACHE_ENABLED, reBaseCmd, hs, hsd]

/-- C4 witness: at a concrete stream URL and cookie file parsing to
`"sid=abc"`, the vector carries exactly the header `"Cookie: sid=abc"`. -/
theorem stream_file_cookie_header_witness :
    buildCommand envBrowserCookies "https://h/v.m3u8" "re" "out" "file" "/c.txt" 0 =
      Except.ok ⟨["N_m3u8DL-RE", "https://h/v.m3u8", "--save-dir", "out", "--auto-select",
          "--no-log", "--header", "Cookie: sid=abc"],
        some "Cookie: sid=abc", [("log_cookie_match", "success")]⟩ := by
  have h := stream_file_cookie_header envBrowserCookies "https://h/v.m3u8" "out" "/c.txt"
    0 "sid=abc" rfl (by decide) rfl
  rw [h]
  rfl

/-! ## Claim C10 — Twitter/X URLs bypass the cookie file on yt-dlp engines -/

/-- C10: when the URL contains "twitter.com" or "x.com", the native and
aria2 builds ignore the supplied cookie file entirely: the only cookie
argument that may appear is `--cookies-from-browser` (present exactly when
the cookie source names a browser), and no `--add-header` cookie or
`--cookies` argument is ever appended, for every cookie path. -/
theorem twitter_bypasses_cookie_file (env : BuildEnv)
    (url saveDir cookieSrc cookiePath : String) (threads : Int)
    (htw : isTwitterUrl url = true) :
    buildCommand env url "native" saveDir cookieSrc cookiePath threads =
      Except.ok ⟨ytBaseCmd env saveDir url ++ browserCookieArgs cookieSrc, none,
        twitterCookieLog cookieSrc⟩ ∧
    buildCommand env url "aria2" saveDir cookieSrc cookiePath threads =
      Except.ok ⟨ytBaseCmd env saveDir url ++ aria2Args env threads ++ browserCookieArgs cookieSrc,
        none, ("log_aria2_enabled", "info") :: twitterCookieLog cookieSrc⟩ := by
  by_cases hb : cookieSrc ∈ browserList
  · constructor <;>
      simp [buildCommand, ytEngineBuild, htw, hb, ytBaseCmd, aria2Args, browserCookieArgs,
        twitterCookieLog]
  · constructor <;>
      simp [buildCommand, ytEngineBuild, htw, hb, ytBaseCmd, aria2Args, browserCookieArgs,
        twitterCookieLog]

/-- C10 witness: an X URL with a supplied cookie file (whose parse would be
non-empty) and file cookie source yields the bare vector with no cookie
argument, plus the advisory warning. -/
theorem twitter_bypasses_cookie_file_witness :
    buildCommand envBrowserCookies "https://x.com/u/status/1" "native" "d" "file" "/c.txt" 0 =
      Except.ok ⟨["yt-dlp", "-P", "d", "--merge-output-format", "mp4", "--retries", "10",
          "-f", "bv+ba/b", "https://x.com/u/status/1"],
        none, [("log_cookie_none", "warning")]⟩ := by
  have h := (twitter_bypasses_cookie_file envBrowserCookies "https://x.com/u/status/1"
    "d" "file" "/c.txt" 0 rfl).1
  rw [h]
  rfl

/-! ## Claim C3 — stream engine with a browser cookie source -/

set_option maxHeartbeats 1000000 in
/-- On a stream URL the RE-engine branch returns a vector on every path
(no raise): every branch after the stream check produces `Except.ok`. -/
theorem reEngineBuild_stream_ok (env : BuildEnv) (url saveDir cookieSrc effPath : String)
    (threads : Int) (hstream : isStreamUrl url = true) :
    ∃ out, reEngineBuild env url saveDir cookieSrc effPath threads = Except.ok out := by
  simp only [reEngineBuild, hstream, Bool.not_true]
  rw [if_neg (show ¬(false = true) by decide)]
  repeat' split
  all_goals exact ⟨_, rfl⟩

/-- C3 counterexample: with `engine = re`, `cookieSource = chrome` and no
cookie file, when the first-run browser bootstrap succeeds and its file
parses to a non-empty cookie string, the builder injects a `Cookie:`
header into the vector and emits no warning — contradicting "no cookie
header and a warning signal". -/
theorem stream_browser_header_cex :
    buildCommand envBrowserCookies "https://h/v.m3u8" "re" "out" "chrome" "" 0 =
      Except.ok ⟨["N_m3u8DL-RE", "https://h/v.m3u8", "--save-dir", "out", "--auto-select",
          "--no-log", "--header", "Cookie: sid=abc"],
        some "Cookie: sid=abc", [("log_cookie_match", "success")]⟩ := by
  rfl

/-- C3 (amended): with the stream engine and a browser cookie source, the
builder never raises on a stream URL; it first attempts the browser-cookie
bootstrap, and only when that yields nothing does it degrade to a vector
with no cookie header, emitting the "RE does not support browser cookies"
warning — when the bootstrap succeeds with parseable cookies they are
injected as a `Cookie:` header instead. -/
theorem stream_browser_degradation (env : BuildEnv) (url saveDir cookieSrc : String)
    (threads : Int) (hb : cookieSrc ∈ browserList) (hstream : isStreamUrl url = true) :
    (∃ out, buildCommand env url "re" saveDir cookieSrc "" threads = Except.ok out) ∧
    (env.bootstrap cookieSrc url = none →
      buildCommand env url "re" saveDir cookieSrc "" threads =
        Except.ok ⟨reBaseCmd env url saveDir threads, none,
          [("log_re_no_browser", "warning")]⟩) := by
  have hfile : cookieSrc ≠ "file" := by
    rcases (by simpa [browserList] using hb : cookieSrc = "chrome" ∨ cookieSrc = "edge" ∨
      cookieSrc = "firefox" ∨ cookieSrc = "safari") with rfl | rfl | rfl | rfl <;> decide
  have hre : cookieSrc ∈ reBrowserList := by
    rcases (by simpa [browserList] using hb : cookieSrc = "chrome" ∨ cookieSrc = "edge" ∨
      cookieSrc = "firefox" ∨ cookieSrc = "safari") with rfl | rfl | rfl | rfl <;> decide
  refine ⟨reEngineBuild_stream_ok env url saveDir cookieSrc
    (effCookiePath env url cookieSrc "") threads hstream, ?_⟩
  intro hboot
  have h1 : effCookiePath env url cookieSrc "" = "" := by
    simp [effCookiePath, hb, hboot, strDataNil]
  simp [buildCommand, reEngineBuild, hstream, h1, tryParse, optTruthy, hfile, hre,
    COOKIE_PERSISTENT_CACHE_ENABLED, reBaseCmd]

/-- C3 witness: with the bootstrap finding no browser cookies, the chrome
cookie source degrades to the bare vector plus the warning. -/
theorem stream_browser_degradation_witness :
    buildCommand envNoCookies "https://h/v.m3u8" "re" "out" "chrome" "" 0 =
      Except.ok ⟨["N_m3u8DL-RE", "https://h/v.m3u8", "--save-dir", "out", "--auto-select",
          "--no-log"], none, [("log_re_no_browser", "warning")]⟩ := by
  have h := (stream_browser_degradation envNoCookies "https://h/v.m3u8" "out" "chrome" 0
    (by decide) rfl).2 rfl
  rw [h]
  rfl

/-! ## Claim C6 — no empty-URL validation in the builder -/

/-- C6 counterexample: building with an empty URL and the native engine is
not rejected: the builder returns a complete yt-dlp vector with the empty
string in URL position, and the supervisor would proceed to spawn it. -/
theorem empty_url_accepted_cex :
    buildCommand envNoCookies "" "native" "." "none" "" 0 =
      Except.ok ⟨["yt-dlp", "-P", ".", "--merge-output-format", "mp4", "--retries", "10",
          "-f", "bv+ba/b", ""], none, []⟩ := by
  rfl

/-- C6 (amended): the builder performs no URL non-emptiness validation.
With the yt-dlp engines an empty URL is accepted into the argument vector
(any guard lives in the GUI layer); with the stream engine an empty URL is
rejected only by the generic non-stream-URL check. -/
theorem empty_url_no_validation (env : BuildEnv) (saveDir : String) (threads : Int)
    (hboot : env.bootstrap "chrome" "" = none) :
    buildCommand env "" "native" saveDir "none" "" threads =
      Except.ok ⟨ytBaseCmd env saveDir "", none, []⟩ ∧
    buildCommand env "" "re" saveDir "none" "" threads =
      Except.error "RE engine only supports stream URLs (m3u8/mpd). Use yt-dlp for webpage URLs." := by
  have htw : isTwitterUrl "" = false := rfl
  have hst : isStreamUrl "" = false := rfl
  have hnb : ("none" : String) ∉ browserList := by decide
  constructor
  · simp [buildCommand, ytEngineBuild, effCookiePath, hboot, htw, hnb, strDataNil,
      ytBaseCmd, tryParse, optTruthy]
  · simp [buildCommand, reEngineBuild, hst]

/-- C6 witness: with the stream engine the empty URL raises the non-stream
`ValueError`, not a dedicated empty-URL `InvalidInput`. -/
theorem empty_url_no_validation_witness :
    buildCommand envNoCookies "" "re" "." "none" "" 0 =
      Except.error "RE engine only supports stream URLs (m3u8/mpd). Use yt-dlp for webpage URLs." :=
  (empty_url_no_validation envNoCookies "." 0 rfl).2
